import Mathlib

/-!
# Verification of the congress-scraper bill transformation engine

This file gives a shallow embedding, in Lean 4, of the legislative action
classification and status state machine implemented in
`src/tasks/transformBill.js` of the DavidBarrick/congress-scraper repository,
together with theorems settling a list of claims about its behaviour.

The embedding follows the JavaScript source function by function.  JavaScript
regular expressions are modelled by a small executable backtracking matcher
(`RE.mrun`) over an explicit regex AST; each regex literal of the source is
transcribed into that AST.  JavaScript `undefined` is modelled by `Option`,
thrown exceptions by `Except JsErr`, and the few JavaScript quirks the source
relies on (truthiness of empty arrays, property access on numbers, destructuring
of absent keys) are modelled explicitly where the source exhibits them.
-/

namespace CongressScraper

/-! ## JavaScript string helpers

JavaScript string primitives used by the source.  `jsReplaceFirst` models
`String.prototype.replace(searchString, replacement)`, which replaces only the
first occurrence of the search string. -/

/-- Does the pattern `pat` occur as a prefix of `l`? -/
def listIsPre (pat l : List Char) : Bool :=
  match pat, l with
  | [], _ => true
  | _ :: _, [] => false
  | p :: ps, c :: cs => p == c && listIsPre ps cs

/-- Does the pattern `pat` occur anywhere inside `l`? (JS `includes`.) -/
def listHasSub (pat l : List Char) : Bool :=
  match l with
  | [] => listIsPre pat []
  | _ :: cs => listIsPre pat l || listHasSub pat cs

/-- Replace the first occurrence of `pat` in `l` by `repl`
    (JS `String.prototype.replace` with a string argument). -/
def listReplaceFirst (pat repl l : List Char) : List Char :=
  match l with
  | [] => []
  | c :: cs =>
    if listIsPre pat l then repl ++ l.drop pat.length
    else c :: listReplaceFirst pat repl cs

/-- JS `text.replace(pat, repl)` on `String`s: first occurrence only. -/
def jsReplaceFirst (s pat repl : String) : String :=
  ⟨listReplaceFirst pat.data repl.data s.data⟩

/-- JS `s.includes(pat)`. -/
def jsIncludes (s pat : String) : Bool := listHasSub pat.data s.data

/-- JS falsiness of an optional string (absent, or present and empty). -/
def jsFalsyStr : Option String → Bool
  | none => true
  | some s => s == ""

/-- JS `s.startsWith(pre)` (structural, kernel-reducible). -/
def jsStartsWith (s pre : String) : Bool := listIsPre pre.data s.data

/-- JS `s.endsWith(suf)` (structural, kernel-reducible). -/
def jsEndsWith (s suf : String) : Bool := listIsPre suf.data.reverse s.data.reverse

/-- JS `s.toLowerCase()` on the ASCII texts involved. -/
def jsToLower (s : String) : String := ⟨s.data.map Char.toLower⟩

/-- One step list of JS `String.prototype.split` with a nonempty separator:
    split at each non-overlapping occurrence, scanning left to right.
    `fuel` bounds the recursion (input length suffices). -/
def listSplitGo (sep : List Char) : Nat → List Char → List Char → List (List Char)
  | 0, acc, l => [acc.reverse ++ l]
  | Nat.succ fuel, acc, l =>
    if sep ≠ [] ∧ listIsPre sep l then
      acc.reverse :: listSplitGo sep fuel [] (l.drop sep.length)
    else match l with
      | [] => [acc.reverse]
      | c :: cs => listSplitGo sep fuel (c :: acc) cs

/-- JS `s.split(sep)` for a nonempty separator. -/
def jsSplit (s sep : String) : List String :=
  (listSplitGo sep.data (s.data.length + 1) [] s.data).map fun l => ⟨l⟩

/-! ## A small backtracking regex matcher

The JavaScript source drives its classification by `RegExp` matching.  We model
the fragment of JS regexes the source uses: literals, character classes
(`\d`, `\w`, `\s`, `\S`, explicit sets), `.`, alternation, greedy and lazy
`?` `*` `+`, capturing groups, and the `^`/`$` anchors, with an optional
case-insensitivity flag (the `i` flag).  `mrun` is a continuation-passing
backtracking matcher; a fuel argument makes it structurally recursive.  The
semantics follows ECMAScript: leftmost match, left-biased alternation, greedy
quantifiers try the longer match first, lazy ones the shorter, and a `*`
iteration that consumes no input terminates the loop. -/

/-- One item of a character class. -/
inductive CItem where
  | ch (c : Char)
  | digit
  | wordc
  | space
deriving Repr, DecidableEq

/-- Regex AST. -/
inductive RE where
  | eps
  | str (s : List Char)
  | cls (neg : Bool) (items : List CItem)
  | dot
  | seq (a b : RE)
  | alt (a b : RE)
  | quest (greedy : Bool) (a : RE)
  | star (greedy : Bool) (a : RE)
  | grp (n : Nat) (a : RE)
  | bos
  | eos
deriving Repr

/-- Character comparison, optionally case-insensitive (ASCII folding,
    matching JS `i`-flag behaviour on the ASCII texts involved). -/
def ceq (ci : Bool) (a b : Char) : Bool :=
  if ci then a.toLower == b.toLower else a == b

/-- Is `c` a JS whitespace character (`\s`)? ASCII portion. -/
def isJsSpace (c : Char) : Bool :=
  c == ' ' || c == '\t' || c == '\n' || c == '\r' || c == '\x0b' || c == '\x0c'

/-- Class item match. -/
def cmatch (ci : Bool) (it : CItem) (c : Char) : Bool :=
  match it with
  | .ch d => ceq ci d c
  | .digit => c.isDigit
  | .wordc => c.isAlphanum || c == '_'
  | .space => isJsSpace c

/-- Captured groups of a match: group index paired with captured characters.
    The head entry for an index shadows older ones. -/
abbrev Caps := List (Nat × List Char)

/-- Match a literal character list against the input head. -/
def matchLit (ci : Bool) (k : List Char → Nat → Caps → Option ρ) :
    List Char → List Char → Nat → Caps → Option ρ
  | [], rem, pos, caps => k rem pos caps
  | _ :: _, [], _, _ => none
  | p :: ps, c :: cs, pos, caps =>
    if ceq ci p c then matchLit ci k ps cs (pos + 1) caps else none

/-- The backtracking matcher.  `rem` is the remaining input, `pos` the absolute
    position inside the subject string, `caps` the captures recorded on the
    current path, and `k` the continuation invoked on every way the node can
    match.  Returns the continuation result of the first (preferred) overall
    success, `none` if no way to match exists (or fuel runs out, which the
    concrete evaluations below never trigger). -/
def mrun (ci : Bool) :
    Nat → RE → List Char → Nat → Caps → (List Char → Nat → Caps → Option ρ) → Option ρ
  | 0, _, _, _, _, _ => none
  | Nat.succ fuel, re, rem, pos, caps, k =>
    match re with
    | .eps => k rem pos caps
    | .bos => if pos = 0 then k rem pos caps else none
    | .eos => match rem with
      | [] => k rem pos caps
      | _ :: _ => none
    | .str s => matchLit ci k s rem pos caps
    | .cls neg items => match rem with
      | [] => none
      | c :: cs =>
        if (items.any fun it => cmatch ci it c) != neg then k cs (pos + 1) caps else none
    | .dot => match rem with
      | [] => none
      | c :: cs => if c == '\n' || c == '\r' then none else k cs (pos + 1) caps
    | .seq a b =>
      mrun ci fuel a rem pos caps fun rem1 pos1 caps1 => mrun ci fuel b rem1 pos1 caps1 k
    | .alt a b =>
      match mrun ci fuel a rem pos caps k with
      | some r => some r
      | none => mrun ci fuel b rem pos caps k
    | .quest greedy a =>
      if greedy then
        match mrun ci fuel a rem pos caps k with
        | some r => some r
        | none => k rem pos caps
      else
        match k rem pos caps with
        | some r => some r
        | none => mrun ci fuel a rem pos caps k
    | .star greedy a =>
      let cont := fun rem1 pos1 caps1 =>
        if pos1 = pos then none
        else mrun ci fuel (.star greedy a) rem1 pos1 caps1 k
      if greedy then
        match mrun ci fuel a rem pos caps cont with
        | some r => some r
        | none => k rem pos caps
      else
        match k rem pos caps with
        | some r => some r
        | none => mrun ci fuel a rem pos caps cont
    | .grp n a =>
      mrun ci fuel a rem pos caps fun rem1 pos1 caps1 =>
        k rem1 pos1 ((n, rem.take (pos1 - pos)) :: caps1)

/-- Fuel used for all concrete matches in this file; ample for the bounded
    texts and patterns involved. -/
def reFuel : Nat := 20000

/-- Attempt a match of `r` at every start position of the input, leftmost
    first, returning the captures of the first success (JS `String.match`). -/
def searchFrom (ci : Bool) (r : RE) : List Char → Nat → Option Caps
  | rem, pos =>
    match mrun ci reFuel r rem pos [] (fun _ _ caps => some caps) with
    | some caps => some caps
    | none => match rem with
      | [] => none
      | _ :: cs => searchFrom ci r cs (pos + 1)

/-- JS `re.test(s)` / truthiness of `s.match(re)`. -/
def rtest (ci : Bool) (r : RE) (s : String) : Bool :=
  (searchFrom ci r s.data 0).isSome

/-- JS `s.match(re)`: captures of the leftmost match, if any. -/
def rmatch (ci : Bool) (r : RE) (s : String) : Option Caps :=
  searchFrom ci r s.data 0

/-- Group `n` of a match result; `none` models a group that did not
    participate in the match (JS `undefined`). -/
def getCap (caps : Caps) (n : Nat) : Option String :=
  (caps.find? fun x => x.1 == n).map fun x => ⟨x.2⟩

/-- First match of `r` in the input, as (start, end) absolute positions. -/
def searchSpan (ci : Bool) (r : RE) : List Char → Nat → Option (Nat × Nat)
  | rem, pos =>
    match mrun ci reFuel r rem pos [] (fun _ pos1 _ => some pos1) with
    | some e => some (pos, e)
    | none => match rem with
      | [] => none
      | _ :: cs => searchSpan ci r cs (pos + 1)

/-- Remove every match of `r` from the input (JS `s.replace(re_g, "")` with a
    global regex and empty replacement).  The fuel argument decreases with each
    removed (necessarily nonempty, for the patterns used here) match. -/
def removeAll (ci : Bool) (r : RE) : Nat → List Char → List Char
  | 0, l => l
  | Nat.succ fuel, l =>
    match searchSpan ci r l 0 with
    | none => l
    | some (s, e) =>
      if e ≤ s then l
      else l.take s ++ removeAll ci r fuel (l.drop e)

/-- JS `s.replace(re, "")` with the `g` flag. -/
def jsRemoveAll (ci : Bool) (r : RE) (s : String) : String :=
  ⟨removeAll ci r (s.length + 1) s.data⟩

/-! ### Regex AST construction helpers -/

/-- Literal string regex. -/
def rs (s : String) : RE := .str s.data

/-- Concatenation of a list of regexes. -/
def rcat (l : List RE) : RE := l.foldr .seq .eps

/-- Left-biased alternation of a list of regexes. -/
def ralt : List RE → RE
  | [] => .eps
  | [r] => r
  | r :: rest => .alt r (ralt rest)

/-- Greedy option. -/
def ropt (r : RE) : RE := .quest true r

/-- Greedy star. -/
def rstar (r : RE) : RE := .star true r

/-- Lazy star (JS `*?`). -/
def rstarL (r : RE) : RE := .star false r

/-- Greedy plus. -/
def rplus (r : RE) : RE := .seq r (.star true r)

/-- Character class from an explicit set of characters. -/
def rset (s : String) : RE := .cls false (s.data.map .ch)

/-- The `\d` class. -/
def rdigit : RE := .cls false [.digit]

/-- The `\d+` pattern. -/
def rdigits : RE := rplus rdigit

/-- The `\s` class. -/
def rspace : RE := .cls false [.space]

/-- The `\S` class. -/
def rnonspace : RE := .cls true [.space]

end CongressScraper

namespace CongressScraper

/-! ## Errors and the bill identity

`JsErr` models the exceptions thrown by `transformBill.js`: the
`{statusCode: 404, message: "Invalid bill id: ..."}` object of
`split_bill_id`, the `{statusCode: 400, message: "Unknown title type: ..."}`
object of `titles_for`, and the `TypeError` raised by the Python-ism
`m.group(1)` in the discharged-committee branch of `parse_bill_action`. -/

inductive JsErr where
  | invalidBillId (id : String)
  | unknownTitleType (label : String)
  | typeError (msg : String)
deriving Repr, DecidableEq

/-- Result record of `split_bill_id` (source returns
    `{ bill_number, bill_type, congress }`). -/
structure SplitId where
  bill_number : String
  bill_type : String
  congress : String
deriving Repr, DecidableEq

/-- `build_bill_id(bill_type, bill_number, congress)`:
    the template string `${bill_type}${bill_number}-${congress}`. -/
def build_bill_id (bill_type bill_number congress : String) : String :=
  bill_type ++ bill_number ++ "-" ++ congress

/-- The regex character class `[a-z]` (code points 97-122). -/
def isLowerAZ (c : Char) : Bool := 97 ≤ c.toNat && c.toNat ≤ 122

/-- The regex character class `\d` (code points 48-57). -/
def isDigit09 (c : Char) : Bool := 48 ≤ c.toNat && c.toNat ≤ 57

/-- `split_bill_id(bill_id)`: matches `bill_id` against
    `/^([a-z]+)(\d+)-(\d+)$/` and returns the three groups; when the match
    fails (`groups` is `null` and indexing it throws, caught by the
    surrounding `try`) it throws the invalid-bill-id error.

    The regex is implemented here as a deterministic scan: `[a-z]+` consumes
    the maximal lowercase-letter run and `\d+` maximal digit runs, which is
    exactly the backtracking behaviour of the pattern because the letter and
    digit classes are disjoint and separated by the literal dash. -/
def split_bill_id (bill_id : String) : Except JsErr SplitId :=
  let cs := bill_id.data
  let letters := cs.takeWhile isLowerAZ
  let rest1 := cs.dropWhile isLowerAZ
  let digits1 := rest1.takeWhile isDigit09
  let rest2 := rest1.dropWhile isDigit09
  match letters, digits1, rest2 with
  | _ :: _, _ :: _, '-' :: rest3 =>
    if rest3 ≠ [] ∧ rest3.all isDigit09 then
      .ok ⟨⟨digits1⟩, ⟨letters⟩, ⟨rest3⟩⟩
    else .error (.invalidBillId bill_id)
  | _, _, _ => .error (.invalidBillId bill_id)

/-! ## The status state machine: `new_status_after_vote` -/

/-- The constitutional-amendment title marker of the table. -/
def constAmendMarker : String :=
  "Proposing an amendment to the Constitution of the United States"

/-- Literal translation of `new_status_after_vote(vote_type, passed, chamber,
    bill_type, suspension, amended, title, prev_status)`
    (`src/tasks/transformBill.js`, lines 630-718).  A JS `return` with no value
    (and falling off the end of the function) is `none`. -/
def new_status_after_vote (vote_type : String) (passed : Bool) (chamber : String)
    (bill_type : String) (suspension : Bool) (amended : Bool)
    (title : String) (prev_status : String) : Option String :=
  if vote_type = "vote" then
    -- vote in originating chamber
    if passed then
      if bill_type = "hres" || bill_type = "sres" then some "PASSED:SIMPLERES"
      else if chamber = "h" then some "PASS_OVER:HOUSE"
      else some "PASS_OVER:SENATE"
    else if suspension then some "PROV_KILL:SUSPENSIONFAILED"
    else if chamber = "h" then some "FAIL:ORIGINATING:HOUSE"
    else some "FAIL:ORIGINATING:SENATE"
  else if vote_type = "vote2" || vote_type = "pingpong" then
    -- vote in second chamber or subsequent pingpong votes
    if passed then
      if amended then
        if chamber = "h" then some "PASS_BACK:HOUSE" else some "PASS_BACK:SENATE"
      else
        if (bill_type = "hjres" || bill_type = "sjres")
            && jsStartsWith title constAmendMarker then
          some "PASSED:CONSTAMEND"
        else if bill_type = "hconres" || bill_type = "sconres" then
          some "PASSED:CONCURRENTRES"
        else some "PASSED:BILL"
    else if vote_type = "pingpong" then some "PROV_KILL:PINGPONGFAIL"
    else if suspension then some "PROV_KILL:SUSPENSIONFAILED"
    else if chamber = "h" then some "FAIL:SECOND:HOUSE"
    else some "FAIL:SECOND:SENATE"
  else if vote_type = "cloture" then
    if !passed then some "PROV_KILL:CLOTUREFAILED" else none
  else if vote_type = "override" then
    if !passed then
      if bill_type = chamber then
        if chamber = "h" then some "VETOED:OVERRIDE_FAIL_ORIGINATING:HOUSE"
        else some "VETOED:OVERRIDE_FAIL_ORIGINATING:SENATE"
      else
        if chamber = "h" then some "VETOED:OVERRIDE_FAIL_SECOND:HOUSE"
        else some "VETOED:OVERRIDE_FAIL_SECOND:SENATE"
    else
      if bill_type = chamber then
        if chamber = "h" then some "VETOED:OVERRIDE_PASS_OVER:HOUSE"
        else some "VETOED:OVERRIDE_PASS_OVER:SENATE"
      else some "ENACTED:VETO_OVERRIDE"
  else if vote_type = "conference" then
    if passed then
      if jsStartsWith prev_status "CONFERENCE:PASSED:" then
        if (bill_type = "hjres" || bill_type = "sjres")
            && jsStartsWith title constAmendMarker then
          some "PASSED:CONSTAMEND"
        else if bill_type = "hconres" || bill_type = "sconres" then
          some "PASSED:CONCURRENTRES"
        else some "PASSED:BILL"
      else
        if chamber = "h" then some "CONFERENCE:PASSED:HOUSE"
        else some "CONFERENCE:PASSED:SENATE"
    else none
  else none

/-- The eight bill types of the data model. -/
def billTypes : List String :=
  ["hr", "hres", "hjres", "hconres", "s", "sres", "sjres", "sconres"]

/-- The six vote types of the transition table. -/
def voteTypes : List String :=
  ["vote", "vote2", "pingpong", "cloture", "override", "conference"]

/-- The two chambers. -/
def chambers : List String := ["h", "s"]

/-- The final-passage resolution of §4.3's table (the vote2-style
    non-amended branch): CONSTAMEND for `hjres`/`sjres` bills whose official
    title starts with the constitutional-amendment marker, CONCURRENTRES for
    `hconres`/`sconres`, otherwise BILL.  Written from the specification
    table, independently of the source. -/
def vote_table_final (billType officialTitle : String) : Option String :=
  if (billType = "hjres" ∨ billType = "sjres") ∧ jsStartsWith officialTitle constAmendMarker then
    some "PASSED:CONSTAMEND"
  else if billType = "hconres" ∨ billType = "sconres" then
    some "PASSED:CONCURRENTRES"
  else some "PASSED:BILL"

/-- The vote-outcome → next-status table of spec §4.3, row by row, written
    from the specification's words (not from the source).  `none` is the
    table's "no change". -/
def vote_table_spec (voteType : String) (passed : Bool) (chamber billType : String)
    (suspension amended : Bool) (officialTitle prevStatus : String) : Option String :=
  if voteType = "vote" then
    if passed then
      if billType = "hres" ∨ billType = "sres" then some "PASSED:SIMPLERES"
      else if chamber = "h" then some "PASS_OVER:HOUSE" else some "PASS_OVER:SENATE"
    else
      if suspension then some "PROV_KILL:SUSPENSIONFAILED"
      else if chamber = "h" then some "FAIL:ORIGINATING:HOUSE"
      else some "FAIL:ORIGINATING:SENATE"
  else if voteType = "vote2" ∨ voteType = "pingpong" then
    if passed then
      if amended then
        if chamber = "h" then some "PASS_BACK:HOUSE" else some "PASS_BACK:SENATE"
      else vote_table_final billType officialTitle
    else
      if voteType = "pingpong" then some "PROV_KILL:PINGPONGFAIL"
      else if suspension then some "PROV_KILL:SUSPENSIONFAILED"
      else if chamber = "h" then some "FAIL:SECOND:HOUSE"
      else some "FAIL:SECOND:SENATE"
  else if voteType = "cloture" then
    if passed then none else some "PROV_KILL:CLOTUREFAILED"
  else if voteType = "override" then
    if passed then
      if billType = chamber then
        if chamber = "h" then some "VETOED:OVERRIDE_PASS_OVER:HOUSE"
        else some "VETOED:OVERRIDE_PASS_OVER:SENATE"
      else some "ENACTED:VETO_OVERRIDE"
    else
      if billType = chamber then
        if chamber = "h" then some "VETOED:OVERRIDE_FAIL_ORIGINATING:HOUSE"
        else some "VETOED:OVERRIDE_FAIL_ORIGINATING:SENATE"
      else
        if chamber = "h" then some "VETOED:OVERRIDE_FAIL_SECOND:HOUSE"
        else some "VETOED:OVERRIDE_FAIL_SECOND:SENATE"
  else if voteType = "conference" then
    if passed then
      if jsStartsWith prevStatus "CONFERENCE:PASSED:" then
        vote_table_final billType officialTitle
      else if chamber = "h" then some "CONFERENCE:PASSED:HOUSE"
      else some "CONFERENCE:PASSED:SENATE"
    else none
  else none

end CongressScraper

namespace CongressScraper

/-! ## The regexes of `transformBill.js`, transcribed into the `RE` AST

Each definition transcribes one `RegExp` literal (or `new RegExp(matchString)`
construction) of the source.  The source builds its two big patterns from
JavaScript double-quoted strings in which `\(` denotes the character `(` (a
capturing group), `\\(` the regex token `\(` (a literal parenthesis), and so
on; the transcriptions below are of the resulting regexes. -/

/-- `/r<\/?[Aa]( \S.*?)?>/g` of `action_for` (the link stripper; the leading
    `r` is a stray Python raw-string marker kept faithfully). -/
def re_links : RE :=
  rcat [rs "r<", ropt (rs "/"), rset "Aa",
        ropt (.grp 1 (rcat [rs " ", rnonspace, rstarL .dot])), rs ">"]

/-- `/^(H|S)\.Amdt\.(\d+)/i` (amendment actions, processed separately). -/
def re_amendment : RE :=
  rcat [.bos, .grp 1 (ralt [rs "H", rs "S"]), rs ".Amdt.", .grp 2 rdigits]

/-- The House vote-on-passage pattern (`matchString` at lines 359-375, `i`
    flag): group 1 the motion, group 2 the veto-override clause, group 3 the
    as-amended clause, group 4 Passed/Failed/Agreed to/Rejected, group 5 the
    vote method. -/
def re_house_vote : RE :=
  rcat [
    .grp 1 (ralt [
      rs "On passage",
      rs "Passed House",
      rcat [rs "Two-thirds of the Members present having voted in the affirmative the bill is passed",
            ropt (rs ",")],
      rcat [rs "On motion to suspend the rules and pass the ", ralt [rs "bill", rs "resolution"]],
      rcat [rs "On agreeing to the ", ralt [rs "resolution", rs "conference report"]],
      rcat [rs "On motion to suspend the rules and agree to the ",
            ralt [rs "resolution", rs "conference report"]],
      rcat [rs "House Agreed to Senate Amendments", rstarL .dot],
      rcat [rs "On motion ", ropt (rs "that "), rs "the House ", ropt (rs "suspend the rules and "),
            ralt [rcat [rs "agree", ropt (rs " with an amendment"), rs " to"], rs "concur in"],
            rs " the Senate amendment", ropt (rs "s"),
            rstar (ralt [rcat [rs " to the House amendment", ropt (rs "s")],
                         rcat [rs " to the Senate amendment", ropt (rs "s")]])]]),
    ropt (.grp 2 (rcat [rs ", the objections of the President to the contrary notwithstanding",
                        ropt .dot])),
    ropt (.grp 3 (ralt [rs ", as amended", rs " (Amended)"])),
    ropt (rs "."), rs " ",
    ropt (.grp 4 (ralt [rs "Passed", rs "Failed", rs "Agreed to", rs "Rejected"])),
    ropt (rs " "),
    .grp 5 (ralt [
      rs "by voice vote",
      rs "without objection",
      rcat [rs "by ",
            .grp 6 (ralt [rcat [rs "the Yeas and Nay", ropt (rs "s")], rs "Yea-Nay Vote",
                          rs "recorded vote"]),
            ropt (.grp 7 (rcat [ropt (rs ":"), rs " (2/3 required)"])),
            rs ": ",
            ropt (.grp 8 (rcat [rdigits, ropt (rs " "), rs "-", ropt (rs " "), rdigits,
                                ropt (.grp 9 (rcat [rs ", ", rdigits, rs " Present"])),
                                rs " ", rstar (rset " )")])),
            rs "(",
            .grp 10 (ralt [rs "Roll no.", rs "Record Vote No:"]),
            rs " ", rdigits, rs ")"]])]

/-- `/\((Roll no\.|Record Vote No:) (\d+)\)/i` (House roll extraction). -/
def re_roll_house : RE :=
  rcat [rs "(", .grp 1 (ralt [rs "Roll no.", rs "Record Vote No:"]), rs " ",
        .grp 2 rdigits, rs ")"]

/-- `/Passed House|House Agreed to/i`. -/
def re_passed_house_motion : RE := ralt [rs "Passed House", rs "House Agreed to"]

/-- `/(ayes|yeas) had prevailed/i`. -/
def re_prevailed : RE :=
  rcat [.grp 1 (ralt [rs "ayes", rs "yeas"]), rs " had prevailed"]

/-- `/Pass|Agreed/i`. -/
def re_pass_agreed : RE := ralt [rs "Pass", rs "Agreed"]

/-- `/Two-thirds of the Members present/i`. -/
def re_twothirds : RE := rs "Two-thirds of the Members present"

/-- `/(agree (with an amendment )?to|concur in) the Senate amendment/i`. -/
def re_pingpong_house : RE :=
  rcat [.grp 1 (ralt [rcat [rs "agree ", ropt (.grp 2 (rs "with an amendment ")), rs "to"],
                      rs "concur in"]),
        rs " the Senate amendment"]

/-- `/conference report/i`. -/
def re_conference : RE := rs "conference report"

/-- `/On motion to suspend the rules/i`. -/
def re_suspend_rules : RE := rs "On motion to suspend the rules"

/-- `/the House agree with an amendment/i`. -/
def re_house_agree_amend : RE := rs "the House agree with an amendment"

/-- The non-recorded House passage pattern (line 425, `i` flag). -/
def re_house_deem : RE :=
  ralt [
    rs "Passed House pursuant to",
    rcat [rs "House agreed to Senate amendment ", ropt (.grp 1 (rs "with amendment ")),
          rs "pursuant to"],
    rcat [rs "Pursuant to the provisions of ", rplus (rset "HSCONJRES. "), rs " ", rdigits,
          rs ", ", rplus (rset "HSCONJRES. "), rs " ", rdigits,
          rs " is considered passed House"]]

/-- `/agreed to Senate amendment/i`. -/
def re_agreed_senate_amdt : RE := rs "agreed to Senate amendment"

/-- `/with amendment/i`. -/
def re_with_amendment : RE := rs "with amendment"

/-- `/as amended/` (no `i` flag). -/
def re_as_amended : RE := rs "as amended"

/-- The agreed-to House motion-to-table pattern (lines 452-454, `i` flag);
    group 1 the vote method. -/
def re_house_table : RE :=
  rcat [rs "On motion to table the measure Agreed to", ropt (rs " "),
        .grp 1 (ralt [
          rs "by voice vote",
          rs "without objection",
          rcat [rs "by ",
                .grp 2 (ralt [rs "the Yeas and Nays", rs "Yea-Nay Vote", rs "recorded vote"]),
                rs ": ",
                ropt (.grp 3 (rcat [rdigits, rs " - ", rdigits,
                                    ropt (.grp 4 (rcat [rs ", ", rdigits, rs " Present"])),
                                    rs " ", rstar (rset " )")])),
                rs "(",
                .grp 5 (ralt [rs "Roll no.", rs "Record Vote No:"]),
                rs " ", rdigits, rs ")"]])]

/-- The Senate vote pattern (`matchString` at lines 489-505).  The source
    passes the pattern string itself to `String.prototype.match`, so the
    regex is built without the `i` flag (the `re` constructed with `"i"` on
    line 506 is unused): Senate vote matching is case-sensitive.  Group 1 the
    motion, group 2 the free-text middle, group 3 the vote method. -/
def re_senate_vote : RE :=
  rcat [
    .grp 1 (ralt [
      rs "Passed Senate",
      rs "Failed of passage in Senate",
      rs "Disagreed to in Senate",
      rs "Resolution agreed to in Senate",
      rcat [rs "Senate ", ralt [rs "agreed to", rs "concurred in"], rs " ", ropt (rs "the "),
            ralt [rs "conference report",
                  rcat [rs "House amendment",
                        rstar (ralt [rcat [rs " to the Senate amendment", ropt (rs "s")],
                                     rcat [rs " to the House amendment", ropt (rs "s")]])]]],
      rs "Senate receded from its amendment and concurred",
      rcat [rs "Cloture ", rstar rnonspace, ropt rspace, rs "on the motion to proceed ",
            rstarL .dot, rs "not invoked in Senate"],
      rcat [rs "Cloture", ropt (rs " motion"), rs " on the motion to proceed to the ",
            ralt [rs "bill", rs "measure"], rs " invoked in Senate"],
      rs "Cloture invoked in Senate",
      rcat [rs "Cloture on ",
            rs "the motion to ", ralt [rs "proceed to ", rs "concur in "],
            ropt (rcat [rs "the House amendment ", ropt (rs "to the Senate amendment "), rs "to "]),
            ralt [rs "the bill", rcat [rs "H", .dot, rs "R", .dot, rs " ", rstar .dot]],
            rs " ", ropt (rs "not "), rs "invoked in Senate"],
      rcat [ralt [rs "Introduced", rs "Received", rs "Submitted"], rs " in the Senate, ",
            rplus (ralt [rs "read twice, ", rs "considered, ", rs "read the third time, "]),
            rs "and ", ralt [rs "passed", rs "agreed to"]]]),
    .grp 2 (rcat [ropt (rs ","), rstar .dot, ropt (rs ",")]),
    rs " ",
    .grp 3 (ralt [
      rs "without objection",
      rs "by Unanimous Consent",
      rs "by Voice Vote",
      rcat [ropt (rs "by "), rs "Yea-Nay", ropt (.grp 4 (rs " Vote")), rs ". ",
            rdigits, rstar rspace, rs "-", rstar rspace, rdigits,
            rs ". Record Vote ", .grp 5 (ralt [rs "No", rs "Number"]), rs ": ", rdigits]])]

/-- `/disagreed|not invoked/i`. -/
def re_disagreed : RE := ralt [rs "disagreed", rs "not invoked"]

/-- `/passed|agreed|concurred|invoked/i`. -/
def re_senate_pass : RE := ralt [rs "passed", rs "agreed", rs "concurred", rs "invoked"]

/-- `/over veto/i`. -/
def re_over_veto : RE := rs "over veto"

/-- `/cloture/i`. -/
def re_cloture : RE := rs "cloture"

/-- `/Senate agreed to (the )?House amendment|Senate concurred in (the )?House amendment/i`. -/
def re_senate_pingpong : RE :=
  ralt [rcat [rs "Senate agreed to ", ropt (.grp 1 (rs "the ")), rs "House amendment"],
        rcat [rs "Senate concurred in ", ropt (.grp 2 (rs "the ")), rs "House amendment"]]

/-- `/Record Vote (No|Number): (\d+)/i` (Senate roll extraction). -/
def re_roll_senate : RE :=
  rcat [rs "Record Vote ", .grp 1 (ralt [rs "No", rs "Number"]), rs ": ", .grp 2 rdigits]

/-- `/with amendments|with an amendment/i`. -/
def re_with_amendments : RE := ralt [rs "with amendments", rs "with an amendment"]

/-- The calendar-placement pattern (line 552, `i` flag). -/
def re_calendar : RE :=
  ralt [
    rcat [rs "Placed on ", ropt (.grp 1 (rs "the ")),
          .grp 2 (rplus (.cls false [.wordc, .ch ' '])), rs " Calendar",
          ropt (.grp 3 (rcat [rs " under ", .grp 4 (rplus (.cls false [.wordc, .ch ' ']))])),
          rset ",.", rs " Calendar No. ", .grp 5 rdigits, rs "."],
    rs "Committee Agreed to Seek Consideration Under Suspension of the Rules",
    rs "Ordered to be Reported"]

/-- `/Committee on (.*)\. Reported by/i`. -/
def re_reported_committee : RE :=
  rcat [rs "Committee on ", .grp 1 (rstar .dot), rs ". Reported by"]

/-- `/Reported to Senate from the (.*?)( \(without written report\))?\./i`. -/
def re_reported_senate : RE :=
  rcat [rs "Reported to Senate from the ", .grp 1 (rstarL .dot),
        ropt (.grp 2 (rs " (without written report)")), rs "."]

/-- `/(Committee on .*?)\. Hearings held/i`. -/
def re_hearings : RE :=
  rcat [.grp 1 (rcat [rs "Committee on ", rstarL .dot]), rs ". Hearings held"]

/-- `/Committee on (.*)\. Discharged (by Unanimous Consent)?/i`. -/
def re_discharged : RE :=
  rcat [rs "Committee on ", .grp 1 (rstar .dot), rs ". Discharged ",
        ropt (.grp 2 (rs "by Unanimous Consent"))]

/-- `/Cleared for White House|Presented to President/i`. -/
def re_topresident : RE := ralt [rs "Cleared for White House", rs "Presented to President"]

/-- `/Signed by President/i`. -/
def re_signed : RE := rs "Signed by President"

/-- `/Pocket Vetoed by President/i`. -/
def re_pocket_vetoed : RE := rs "Pocket Vetoed by President"

/-- `/Vetoed by President/i`. -/
def re_vetoed : RE := rs "Vetoed by President"

/-- `/Sent to Archivist of the United States unsigned/` (no `i` flag). -/
def re_archivist : RE := rs "Sent to Archivist of the United States unsigned"

/-- `/^(?:Became )?(Public|Private) Law(?: No:)? ([\d\-]+)\./i`. -/
def re_law : RE :=
  rcat [.bos, ropt (rs "Became "), .grp 1 (ralt [rs "Public", rs "Private"]), rs " Law",
        ropt (rs " No:"), rs " ", .grp 2 (rplus (.cls false [.digit, .ch '-'])), rs "."]

/-- `/Referred to (?:the )?(House|Senate)?\s?(?:Committee|Subcommittee)?/i`. -/
def re_referral : RE :=
  rcat [rs "Referred to ", ropt (rs "the "), ropt (.grp 1 (ralt [rs "House", rs "Senate"])),
        ropt rspace, ropt (ralt [rs "Committee", rs "Subcommittee"])]

/-- `/"Sponsor introductory remarks"/i` of `activation_from` (note the
    quotation marks are part of the pattern). -/
def re_intro_remarks : RE := rs "\"Sponsor introductory remarks\""

end CongressScraper

namespace CongressScraper

/-! ## Actions: normalization, deduplication, classification -/

/-- A raw action item, after the (shallow) single-element-array collapsing of
    `transformNode`.  `sourceSystemCode` is the `code` field of the
    `sourceSystem` sub-object (`none` models an absent `code`; the
    `sourceSystem` object itself is always present in the bulk data, and the
    source would throw on its absence). -/
structure RawAction where
  actionDate : String
  actionTime : Option String := none
  actionCode : Option String := none
  sourceSystemCode : Option String := none
  text : String
deriving Repr, DecidableEq

/-- A classified action record (`action_dict` of the source, after
    `parse_bill_action`'s extra fields are assigned onto it).  Fields that a
    JS object may simply lack are `Option`; `where_` models the source's
    `where` key, `congress`/`number` the law-citation keys. -/
structure BillAction where
  acted_at : String
  action_code : Option String := none
  type : String := "action"
  text : String
  status : Option String := none
  vote_type : Option String := none
  how : Option String := none
  where_ : Option String := none
  result : Option String := none
  suspension : Option Bool := none
  roll : Option String := none
  committee : Option String := none
  pocket : Option String := none
  law : Option String := none
  congress : Option String := none
  number : Option String := none
deriving Repr, DecidableEq

/-- The `action` object built by `parse_bill_action` (initially
    `{ type: "action" }`, fields added by the matching rules). -/
structure ActionInfo where
  type : String := "action"
  vote_type : Option String := none
  how : Option String := none
  where_ : Option String := none
  result : Option String := none
  suspension : Option Bool := none
  roll : Option String := none
  committee : Option String := none
  pocket : Option String := none
  law : Option String := none
  congress : Option String := none
  number : Option String := none
deriving Repr, DecidableEq

/-- The `{ action, status }` object returned by `parse_bill_action`;
    `action := none` models the bare `{ }` returned for amendment lines. -/
structure ParseResult where
  action : Option ActionInfo
  status : Option String := none
deriving Repr, DecidableEq

/-- `acted_at`: models
    `new Date(actionDate + (actionTime ? "T"+actionTime : "")).toISOString()`
    for the well-formed dates of the bulk data in a UTC environment (a bare
    date parses as UTC midnight, a date-time as the given clock time). -/
def toISO (actionDate : String) (actionTime : Option String) : String :=
  if jsFalsyStr actionTime then actionDate ++ "T00:00:00.000Z"
  else actionDate ++ "T" ++ actionTime.getD "" ++ ".000Z"

/-- The link stripper applied to action text (`text.replace(/r<\/?[Aa]( \S.*?)?>/g, "")`). -/
def strip_links (text : String) : String := jsRemoveAll false re_links text

/-- `action_for(item)`: timestamp, action code, initial type `action`, and
    link-stripped text. -/
def action_for (item : RawAction) : BillAction :=
  { acted_at := toISO item.actionDate item.actionTime
    action_code := item.actionCode
    type := "action"
    text := strip_links item.text }

/-- JS `s.replace(" ", "")`: removes only the first space. -/
def stripFirstSpace (s : String) : String := jsReplaceFirst s " " ""

/-- The body of `keep_action` for a current item with an existing
    `closure['prev']`: drop (return `false`) only for a Library-of-Congress
    (`sourceSystem.code == "9"`) action whose date matches the previous
    action's, whose time matches it or is absent on either side, and whose
    first-space-stripped, link-stripped text ends with the previous action's
    first-space-stripped, link-stripped text. -/
def keep_action_body (prev item : RawAction) : Bool :=
  if item.sourceSystemCode == some "9" then
    !(item.actionDate == prev.actionDate
      && (item.actionTime == prev.actionTime
          || jsFalsyStr item.actionTime || jsFalsyStr prev.actionTime)
      && jsEndsWith (stripFirstSpace (action_for item).text)
           (stripFirstSpace (action_for prev).text))
  else true

/-- `actions.filter(keep_action)` with its stateful closure: an action with
    empty text is dropped before `closure['prev']` is updated (the early
    `return false`), every other action updates `closure['prev']` whether it
    is kept or not. -/
def dedup_actions : Option RawAction → List RawAction → List RawAction
  | _, [] => []
  | prev, a :: rest =>
    if a.text == "" then dedup_actions prev rest
    else
      let kept := match prev with
        | none => true
        | some p => keep_action_body p a
      (if kept then [a] else []) ++ dedup_actions (some a) rest

end CongressScraper

namespace CongressScraper

/-- `parse_bill_action(action_dict, prev_status, bill_id, title)`
    (`src/tasks/transformBill.js`, lines 343-628): the ordered,
    non-short-circuiting rule cascade.  The `action` object and the `status`
    variable are threaded through the rules in source order; each rule that
    matches overwrites the fields it sets.  The discharged-committee rule
    calls the Python-ism `m.group(1)` and therefore throws a `TypeError`
    whenever its regex matches.  A JS `test` on an `undefined` group coerces
    it to the string `"undefined"` (which none of the patterns involved can
    match, so it is modelled as a failed test). -/
def parse_bill_action (action_dict : BillAction) (prev_status : String)
    (bill_id : String) (title : String) : Except JsErr ParseResult := do
  let sp ← split_bill_id bill_id
  let bill_type := sp.bill_type
  let text := action_dict.text
  if rtest true re_amendment text then
    return { action := none, status := none }
  let a0 : ActionInfo := {}
  let s0 : Option String := none
  -- House Vote
  let (a1, s1) :=
    match rmatch true re_house_vote (jsReplaceFirst text ", the Passed" ", Passed") with
    | none => (a0, s0)
    | some m =>
      let motion := (getCap m 1).getD ""
      let is_override0 := getCap m 2
      let as_amended0 := getCap m 3
      let pass_fail0 := getCap m 4
      let how0 := (getCap m 5).getD ""
      let pass_fail : String :=
        if rtest true re_passed_house_motion motion then "pass"
        else if rtest true re_prevailed text then "pass"
        else if (match pass_fail0 with
                 | some pf => rtest true re_pass_agreed pf
                 | none => false) then "pass"
        else "fail"
      let is_override : Bool := is_override0.isSome || rtest true re_twothirds motion
      let vote_type : String :=
        if is_override then "override"
        else if rtest true re_pingpong_house text then "pingpong"
        else if rtest true re_conference text then "conference"
        else if bill_type = "hr" then "vote"
        else "vote2"
      let (how1, roll) :=
        match rmatch true re_roll_house how0 with
        | some mr => ("roll", getCap mr 2)
        | none => (how0, (none : Option String))
      let suspension : Option Bool :=
        if roll.isSome && rtest true re_suspend_rules motion then some true else none
      let as_amended : Bool :=
        if rtest true re_house_agree_amend motion then true else as_amended0.isSome
      let a1 : ActionInfo :=
        { a0 with
          type := "vote", vote_type := some vote_type, how := some how1,
          where_ := some "h", result := some pass_fail, suspension := suspension,
          roll := roll }
      let ns := new_status_after_vote vote_type (pass_fail = "pass") "h" bill_type
        (suspension == some true) as_amended title prev_status
      (a1, match ns with | some st => some st | none => s0)
  -- Passed House, not necessarily by an actual vote (think "deem")
  let (a2, s2) :=
    if rtest true re_house_deem text then
      let vote_type0 := if bill_type = "hr" then "vote" else "vote2"
      let vote_type := if rtest true re_agreed_senate_amdt text then "pingpong" else vote_type0
      let as_amended := rtest true re_with_amendment text || rtest false re_as_amended text
      let a2 : ActionInfo :=
        { a1 with
          type := "vote", vote_type := some vote_type, how := some "by special rule",
          where_ := some "h", result := some "pass" }
      let ns := new_status_after_vote vote_type true "h" bill_type false as_amended
        title prev_status
      (a2, match ns with | some st => some st | none => s1)
    else (a1, s1)
  -- House motion to table, agreed to
  let (a3, s3) :=
    match rmatch true re_house_table text with
    | none => (a2, s2)
    | some m =>
      let how0 := (getCap m 1).getD ""
      let vote_type : String :=
        if prev_status = "INTRODUCED" || jsStartsWith bill_id "hres" then "vote" else "vote2"
      let (how1, roll) :=
        match rmatch true re_roll_house how0 with
        | some mr => ("roll", getCap mr 2)
        | none => (how0, (none : Option String))
      let a3 : ActionInfo :=
        { a2 with
          type := "vote", vote_type := some vote_type, how := some how1,
          where_ := some "h", result := some "fail",
          roll := if roll.isSome then roll else a2.roll }
      let ns := new_status_after_vote vote_type false "h" bill_type false false
        title prev_status
      (a3, match ns with | some st => some st | none => s2)
  -- A Senate Vote (case-sensitive: the pattern string is passed to `match`)
  let (a4, s4) :=
    match rmatch false re_senate_vote (jsReplaceFirst text "  " " ") with
    | none => (a3, s3)
    | some m =>
      let motion := (getCap m 1).getD ""
      let extra := (getCap m 2).getD ""
      let how0 := (getCap m 3).getD ""
      let pass_fail : String :=
        if rtest true re_disagreed motion then "fail"
        else if rtest true re_senate_pass motion then "pass"
        else "fail"
      let (vote_type, voteaction_type) :=
        if rtest true re_over_veto extra then ("override", "vote")
        else if rtest true re_conference motion then ("conference", "vote")
        else if rtest true re_cloture motion then ("cloture", "vote-aux")
        else if rtest true re_senate_pingpong motion then ("pingpong", "vote")
        else if bill_type = "s" then ("vote", "vote")
        else ("vote2", "vote")
      let (how1, roll) :=
        match rmatch true re_roll_senate how0 with
        | some mr => ("roll", getCap mr 2)
        | none => (how0, (none : Option String))
      let as_amended : Bool := rtest true re_with_amendments extra
      let a4 : ActionInfo :=
        { a3 with
          type := voteaction_type, vote_type := some vote_type, how := some how1,
          result := some pass_fail, where_ := some "s",
          roll := if roll.isSome then roll else a3.roll }
      let ns := new_status_after_vote vote_type (pass_fail = "pass") "s" bill_type
        false as_amended title prev_status
      (a4, match ns with | some st => some st | none => s3)
  -- Calendar placement
  let (a5, s5) :=
    if rtest true re_calendar text then
      ({ a4 with type := "calendar" },
       if prev_status = "INTRODUCED" || prev_status = "REFERRED" then some "REPORTED" else s4)
    else (a4, s4)
  -- reported
  let (a6, s6) :=
    match rmatch true re_reported_committee text with
    | none => (a5, s5)
    | some m =>
      ({ a5 with type := "reported", committee := getCap m 1 },
       if prev_status = "INTRODUCED" || prev_status = "REFERRED" then some "REPORTED" else s5)
  -- 93rd Congress Senate reporting form
  let (a7, s7) :=
    match rmatch true re_reported_senate text with
    | none => (a6, s6)
    | some m =>
      ({ a6 with type := "reported", committee := getCap m 1 },
       if prev_status = "INTRODUCED" || prev_status = "REFERRED" then some "REPORTED" else s6)
  -- hearings held by a committee
  let (a8, s8) :=
    match rmatch true re_hearings text with
    | none => (a7, s7)
    | some m => ({ a7 with committee := getCap m 1, type := "hearings" }, s7)
  -- discharged: `m.group(1)` throws a TypeError whenever the regex matches
  if rtest true re_discharged text then
    throw (JsErr.typeError "m.group is not a function")
  let a9 := a8
  let s9 := s8
  -- to president
  let a10 := if rtest true re_topresident text then { a9 with type := "topresident" } else a9
  let s10 := s9
  -- signed
  let (a11, s11) :=
    if rtest true re_signed text then ({ a10 with type := "signed" }, some "ENACTED:SIGNED")
    else (a10, s10)
  -- vetoed
  let (a12, s12) :=
    if rtest true re_pocket_vetoed text then
      ({ a11 with type := "vetoed", pocket := some "1" }, some "VETOED:POCKET")
    else if rtest true re_vetoed text then
      ({ a11 with type := "vetoed" }, some "PROV_KILL:VETO")
    else (a11, s11)
  -- ten-day rule
  let s13 := if rtest false re_archivist text then some "ENACTED:TENDAYRULE" else s12
  let a13 := a12
  -- enacted (public/private law citation)
  let (a14, s14) :=
    match rmatch true re_law text with
    | none => (a13, s13)
    | some m =>
      let pieces := jsSplit ((getCap m 2).getD "") "-"
      let a14 : ActionInfo :=
        { a13 with
          law := some (jsToLower ((getCap m 1).getD "")),
          congress := some (pieces.headD ""), number := pieces[1]?,
          type := "enacted" }
      let s14 :=
        if prev_status = "ENACTED:SIGNED" || prev_status = "ENACTED:VETO_OVERRIDE"
            || prev_status = "ENACTED:TENDAYRULE" then
          s13  -- `status = status`: a final administrative step
        else if prev_status = "PROV_KILL:VETO" || jsStartsWith prev_status "VETOED:" then
          some "ENACTED:VETO_OVERRIDE"
        else s13
      (a14, s14)
  -- referral
  let (a15, s15) :=
    if rtest true re_referral text then
      ({ a14 with type := "referral" },
       if prev_status = "INTRODUCED" then some "REFERRED" else s14)
    else (a14, s14)
  return { action := some a15, status := s15 }

end CongressScraper

namespace CongressScraper

/-! ## The classification pipeline of `actions_for` -/

/-- Property access on a JS number primitive: always `undefined`.  In
    `actions.filter(keep_action).reverse().map(build_dict)` the callback
    `build_dict(item, closure)` shadows the outer `closure` object with its
    second parameter, which `map` supplies as the element index, so
    `closure['prev_status']` reads a property of a number. -/
def jsNumberProp (_idx : Nat) (_key : String) : Option String := none

/-- Destructuring a string-keyed field out of `parse_bill_action`'s result
    object, which has exactly the keys `action` and `status`.  The source
    destructures the key `stauts`, which is absent, so that binding is always
    `undefined`. -/
def parseResultProp (r : ParseResult) (key : String) : Option String :=
  if key = "status" then r.status else none

/-- `Object.assign(action_dict, extra_action_info)`: copies the classifier's
    fields onto the action record (the classifier's object never carries a
    `status` key, and `acted_at`/`action_code`/`text` are never among its
    keys, so those stay). -/
def objectAssign (d : BillAction) (info : ActionInfo) : BillAction :=
  { d with
    type := info.type, vote_type := info.vote_type, how := info.how,
    where_ := info.where_, result := info.result, suspension := info.suspension,
    roll := info.roll, committee := info.committee, pocket := info.pocket,
    law := info.law, congress := info.congress, number := info.number }

/-- `build_dict(item, closure)` of `actions_for`: classify one kept action.
    `closure` is the numeric map index (see `jsNumberProp`), so the
    `prev_status` argument of `parse_bill_action` is always `undefined` and
    its default `""` applies; the new status is destructured under the
    misspelt key `stauts` (see `parseResultProp`), so it is always
    `undefined` and the `status` field is never set. -/
def build_dict (bill_id title : String) (item : RawAction) (idx : Nat) :
    Except JsErr BillAction := do
  let action_dict := action_for item
  let prev_status := (jsNumberProp idx "prev_status").getD ""
  let r ← parse_bill_action action_dict prev_status bill_id title
  let extra_action_info := r.action
  let new_status := parseResultProp r "stauts"
  let action_dict1 :=
    match new_status with
    | some st => { action_dict with status := some st }
    | none => action_dict
  let action_dict2 :=
    match extra_action_info with
    | some info => objectAssign action_dict1 info
    | none => action_dict1
  return action_dict2

/-- Index-passing `map` over `Except` (JS `map` with a throwing callback). -/
def mapIdxME (f : α → Nat → Except ε β) : List α → Nat → Except ε (List β)
  | [], _ => .ok []
  | a :: rest, i => do
    let b ← f a i
    let bs ← mapIdxME f rest (i + 1)
    return b :: bs

/-- The `actions.item` node handed to `actions_for` (raw actions in source,
    newest-first, order). -/
structure ActionsNode where
  item : List RawAction
deriving Repr

/-- `actions_for(actionsNode, bill_id, title)`: deduplicate (newest-first),
    reverse to chronological order, and classify each kept action. -/
def actions_for (actionsNode : ActionsNode) (bill_id title : String) :
    Except JsErr (List BillAction) :=
  let actions := actionsNode.item
  if actions.length = 0 then .ok []
  else mapIdxME (build_dict bill_id title) (dedup_actions none actions).reverse 0

/-- Result of `latest_status` together with the observable effect of its
    `actions.pop()` on the caller's array. -/
structure LatestStatus where
  status : Option String
  status_date : Option String
  remaining : List BillAction
deriving Repr, DecidableEq

/-- `latest_status(actions, introduced_at)`: pops the last classified action
    (mutating the caller's array: `remaining` is the array after the pop) and
    unconditionally reads that action's `status` and `acted_at`; only with no
    actions at all do the defaults `INTRODUCED`/`introduced_at` survive. -/
def latest_status (actions : List BillAction) (introduced_at : Option String) :
    LatestStatus :=
  match actions.getLast? with
  | some la => ⟨la.status, some la.acted_at, actions.dropLast⟩
  | none => ⟨some "INTRODUCED", introduced_at, actions⟩

/-! ## History summarizer -/

/-- Result of `activation_from`: the source returns the empty array `[]` for
    an empty action list (a truthy value in JavaScript), a found action, or
    `undefined` when the scan finds nothing. -/
inductive ActivationResult where
  | emptyArr
  | found (a : BillAction)
  | undef
deriving Repr, DecidableEq

/-- JS truthiness of an `activation_from` result (`[]` is truthy). -/
def activationTruthy : ActivationResult → Bool
  | .emptyArr => true
  | .found _ => true
  | .undef => false

/-- `activation['acted_at']`: property access on the result (an array has no
    `acted_at` property). -/
def activationActedAt : ActivationResult → Option String
  | .found a => some a.acted_at
  | _ => none

/-- `activation_from(actions)`: find the first action beyond the standard
    actions every bill gets.  Note the introductory-remarks pattern includes
    literal quotation marks (see `re_intro_remarks`). -/
def activation_from (actions : List BillAction) : ActivationResult :=
  match actions with
  | [] => .emptyArr
  | first :: rest =>
    if first.type = "referral" || first.type = "calendar" || first.type = "action" then
      match rest.find? (fun action =>
        action.type != "referral" && action.type != "calendar"
          && !(rtest true re_intro_remarks action.text)) with
      | some action => .found action
      | none => .undef
    else .found first

/-- The derived history summary record. -/
structure History where
  active : Bool
  active_at : Option String := none
  house_passage_result : Option String := none
  house_passage_result_at : Option String := none
  senate_passage_result : Option String := none
  senate_passage_result_at : Option String := none
  senate_cloture_result : Option String := none
  senate_cloture_result_at : Option String := none
  vetoed : Bool
  vetoed_at : Option String := none
  house_override_result : Option String := none
  house_override_result_at : Option String := none
  senate_override_result : Option String := none
  senate_override_result_at : Option String := none
  enacted : Bool
  enacted_at : Option String := none
  awaiting_signature : Bool
  awaiting_signature_since : Option String := none
deriving Repr, DecidableEq

/-- `history_from_actions(actions)` (lines 720-778): `filter(...).pop()`
    selects the latest matching action. -/
def history_from_actions (actions : List BillAction) : History :=
  let activation := activation_from actions
  let active := activationTruthy activation
  let active_at := if activationTruthy activation then activationActedAt activation else none
  let house_vote := (actions.filter fun a =>
    a.type == "vote" && a.where_ == some "h" && a.vote_type != some "override").getLast?
  let senate_vote := (actions.filter fun a =>
    a.type == "vote" && a.where_ == some "s" && a.vote_type != some "override").getLast?
  let senate_cloture := (actions.filter fun a =>
    a.type == "vote-aux" && a.vote_type == some "cloture" && a.where_ == some "s"
      && a.vote_type != some "override").getLast?
  let vetoed := (actions.filter fun a => a.type == "vetoed").getLast?
  let house_override := (actions.filter fun a =>
    a.type == "vote" && a.where_ == some "h" && a.vote_type == some "override").getLast?
  let senate_override := (actions.filter fun a =>
    a.type == "vote" && a.where_ == some "s" && a.vote_type == some "override").getLast?
  let enacted := (actions.filter fun a => a.type == "enacted").getLast?
  let topresident := (actions.filter fun a => a.type == "topresident").getLast?
  { active := active
    active_at := active_at
    house_passage_result := house_vote.bind fun a => a.result
    house_passage_result_at := house_vote.map fun a => a.acted_at
    senate_passage_result := senate_vote.bind fun a => a.result
    senate_passage_result_at := senate_vote.map fun a => a.acted_at
    senate_cloture_result := senate_cloture.bind fun a => a.result
    senate_cloture_result_at := senate_cloture.map fun a => a.acted_at
    vetoed := vetoed.isSome
    vetoed_at := vetoed.map fun a => a.acted_at
    house_override_result := house_override.bind fun a => a.result
    house_override_result_at := house_override.map fun a => a.acted_at
    senate_override_result := senate_override.bind fun a => a.result
    senate_override_result_at := senate_override.map fun a => a.acted_at
    enacted := enacted.isSome
    enacted_at := enacted.map fun a => a.acted_at
    awaiting_signature := topresident.isSome && !vetoed.isSome && !enacted.isSome
    awaiting_signature_since :=
      if topresident.isSome && !vetoed.isSome && !enacted.isSome then
        topresident.map fun a => a.acted_at
      else none }

end CongressScraper

namespace CongressScraper

/-! ## Title classifier -/

/-- A raw title item (after node collapsing). -/
structure TitleItem where
  titleType : String
  title : String
deriving Repr, DecidableEq

/-- A classified title (`{ title, is_for_portion, as, type }`); `as` is
    `none` when the label had no two-way " as "/" on " split (the JS
    `state` variable stays `undefined`). -/
structure Title where
  title : String
  is_for_portion : Bool
  as : Option String
  type : String
deriving Repr, DecidableEq

/-- `map` over `Except` (JS `map` with a throwing callback). -/
def mapME (f : α → Except ε β) : List α → Except ε (List β)
  | [] => .ok []
  | a :: rest => do
    let b ← f a
    let bs ← mapME f rest
    return b :: bs

/-- `build_dict` of `titles_for` (lines 220-265): split the label on
    `" as "` (if present, else `" on "`); with exactly two parts, strip the
    `" for portions of this bill"` suffix (setting the portion flag), remove
    the first colon, and lower-case the qualifier; classify the kind by
    substring; unknown kinds throw. -/
def title_build_dict (item : TitleItem) : Except JsErr Title :=
  let full_type := item.titleType
  let splits :=
    if jsIncludes full_type " as " then jsSplit full_type " as "
    else jsSplit full_type " on "
  let parsed :=
    if splits.length = 2 then
      let st0 := (splits[1]?).getD ""
      let ifp := jsEndsWith st0 " for portions of this bill"
      let st1 := if ifp then jsReplaceFirst st0 " for portions of this bill" "" else st0
      (splits.headD "", some (jsToLower (jsReplaceFirst st1 ":" "")), ifp)
    else (full_type, (none : Option String), false)
  let title_type := parsed.1
  let state := parsed.2.1
  let is_for_portion := parsed.2.2
  if jsIncludes title_type "Popular Title" then
    .ok ⟨item.title, is_for_portion, state, "popular"⟩
  else if jsIncludes title_type "Short Title" then
    .ok ⟨item.title, is_for_portion, state, "short"⟩
  else if jsIncludes title_type "Official Title" then
    .ok ⟨item.title, is_for_portion, state, "official"⟩
  else if jsIncludes title_type "Display Title" then
    .ok ⟨item.title, is_for_portion, state, "display"⟩
  else if title_type = "Non-bill-report" then
    .ok ⟨item.title, is_for_portion, state, "nonbillreport"⟩
  else .error (.unknownTitleType title_type)

/-- The `titles.item` node. -/
structure TitlesNode where
  item : List TitleItem
deriving Repr

/-- `titles_for(titlesNode)`. -/
def titles_for (titlesNode : TitlesNode) : Except JsErr (List Title) :=
  if titlesNode.item.length = 0 then .ok []
  else mapME title_build_dict titlesNode.item

/-- `current_title_for(titles, title_type)`: the last title of the given
    type, if any. -/
def current_title_for (titles : List Title) (title_type : String) : Option String :=
  ((titles.filter fun t => t.type == title_type).getLast?).map fun t => t.title

/-! ## The record slice built by `transformGovInfoBill` -/

/-- The classified-action/history/status slice of the output record. -/
structure BillRecordCore where
  actions : List BillAction
  history : History
  status : Option String
  status_at : Option String
deriving Repr, DecidableEq

/-- The action/history/status data flow of `transformGovInfoBill`
    (lines 853-871): `actions_for` builds the classified array,
    `latest_status` pops its last element in place, and the record's
    `actions` field and `history_from_actions` are then computed from the
    popped array.  `official_title` is `current_title_for(titles, 'official')`
    (possibly absent; `parse_bill_action`'s default turns an absent title
    into `""`). -/
def bill_record_core (actionsNode : ActionsNode) (bill_id : String)
    (official_title : Option String) (introducedDate : Option String) :
    Except JsErr BillRecordCore := do
  let actions ← actions_for actionsNode bill_id (official_title.getD "")
  let ls := latest_status actions introducedDate
  return { actions := ls.remaining
           history := history_from_actions ls.remaining
           status := ls.status
           status_at := ls.status_date }

end CongressScraper

namespace CongressScraper

/-! ## Specification-side definitions

The definitions in this section are written from the words of the
specification and of the claims under examination (not from the source);
they are compared with the source embeddings by the theorems below. -/

/-- Claim C10's pattern `^[a-z]+\d+-\d+$`: a nonempty lowercase-letter run,
    a nonempty digit run, a dash, and a nonempty digit run spanning the whole
    string. -/
def bill_id_pattern (s : String) : Prop :=
  ∃ a b c : List Char,
    s.data = a ++ b ++ '-' :: c ∧
    a ≠ [] ∧ b ≠ [] ∧ c ≠ [] ∧
    (∀ x ∈ a, isLowerAZ x) ∧ (∀ x ∈ b, isDigit09 x) ∧ (∀ x ∈ c, isDigit09 x)

/-- "Whitespace-stripped" in the words of claim C4: every whitespace
    character removed. -/
def stripAllWhitespace (s : String) : String :=
  ⟨s.data.filter fun c => !isJsSpace c⟩

/-- The drop condition of claim C4 exactly as stated: the baseline is the
    immediately preceding source-order action (`prev`), times match when
    equal or **absent** on either side, and the texts are whitespace-stripped
    in full. -/
def dedup_spec_original_drop (prev : Option RawAction) (a : RawAction) : Bool :=
  a.text == "" ||
  (a.sourceSystemCode == some "9" &&
    match prev with
    | none => false
    | some p =>
      a.actionDate == p.actionDate
        && (a.actionTime == p.actionTime || a.actionTime == none || p.actionTime == none)
        && jsEndsWith (stripAllWhitespace (strip_links a.text))
            (stripAllWhitespace (strip_links p.text)))

/-- The deduplicator according to claim C4 as stated: every action is
    compared against the immediately preceding source-order action. -/
def dedup_spec_original : Option RawAction → List RawAction → List RawAction
  | _, [] => []
  | prev, a :: rest =>
    (if dedup_spec_original_drop prev a then [] else [a]) ++
      dedup_spec_original (some a) rest

/-- The drop condition of claim C4 as amended: the comparison baseline is the
    most recent preceding source-order action with non-empty text, a time
    matches when equal or absent-or-empty on either side, and "stripped"
    means the first space removed (the source's `replace(" ", "")`). -/
def dedup_spec_amended_drop (baseline : Option RawAction) (a : RawAction) : Bool :=
  a.text == "" ||
  (a.sourceSystemCode == some "9" &&
    match baseline with
    | none => false
    | some p =>
      a.actionDate == p.actionDate
        && (a.actionTime == p.actionTime
            || jsFalsyStr a.actionTime || jsFalsyStr p.actionTime)
        && jsEndsWith (stripFirstSpace (strip_links a.text))
            (stripFirstSpace (strip_links p.text)))

/-- The deduplicator according to claim C4 as amended: an empty-text action
    is dropped without becoming the next baseline. -/
def dedup_spec_amended : Option RawAction → List RawAction → List RawAction
  | _, [] => []
  | baseline, a :: rest =>
    (if dedup_spec_amended_drop baseline a then [] else [a]) ++
      dedup_spec_amended (if a.text == "" then baseline else some a) rest

/-- The qualifier transformation of claim C8 exactly as stated: strip a
    **trailing** colon, then lower-case. -/
def title_as_spec_original (q : String) : String :=
  jsToLower (if jsEndsWith q ":" then ⟨q.data.dropLast⟩ else q)

/-- The kind classification of claim C8 (substring match on the known kinds,
    `UnknownTitleType` otherwise). -/
def title_kind_spec (kind : String) : Except JsErr String :=
  if jsIncludes kind "Popular Title" then .ok "popular"
  else if jsIncludes kind "Short Title" then .ok "short"
  else if jsIncludes kind "Official Title" then .ok "official"
  else if jsIncludes kind "Display Title" then .ok "display"
  else if kind = "Non-bill-report" then .ok "nonbillreport"
  else .error (.unknownTitleType kind)

/-- Claim C8 as amended: split the label on `" as "` (else `" on "`); with
    exactly two parts, strip the portion suffix (setting the flag), remove
    the **first** colon (not specifically a trailing one), and lower-case the
    qualifier into `as`; classify the kind by substring, failing with
    `UnknownTitleType` on unknown kinds. -/
def title_spec_amended (item : TitleItem) : Except JsErr Title :=
  let label := item.titleType
  let splits :=
    if jsIncludes label " as " then jsSplit label " as " else jsSplit label " on "
  match splits with
  | [kind, qualifier] =>
    let ifp := jsEndsWith qualifier " for portions of this bill"
    let q1 := if ifp then jsReplaceFirst qualifier " for portions of this bill" "" else qualifier
    let asv := jsToLower (jsReplaceFirst q1 ":" "")
    (title_kind_spec kind).map fun ty => ⟨item.title, ifp, some asv, ty⟩
  | _ => (title_kind_spec label).map fun ty => ⟨item.title, false, none, ty⟩

/-! ## Concrete inputs used by the theorems below -/

/-- The action dictionary for the enactment-citation scenario (claim C7). -/
def law_action_dict : BillAction :=
  { acted_at := "2020-03-06T00:00:00.000Z", text := "Became Public Law No: 116-123." }

/-- Scenario A (claims C3, C6, C9): a single introduced action, matched by no
    classification rule. -/
def nodeA : ActionsNode :=
  ⟨[{ actionDate := "2019-01-03", sourceSystemCode := some "2",
      text := "Introduced in House" }]⟩

/-- The classified record of `nodeA`'s single action. -/
def actA : BillAction :=
  { acted_at := "2019-01-03T00:00:00.000Z", type := "action",
    text := "Introduced in House" }

/-- Scenario B (claim C2): referral, committee report, House passage by voice
    vote, Senate passage without amendment — in the source's newest-first
    order. -/
def scenarioB_node : ActionsNode := ⟨[
  { actionDate := "2019-03-12", sourceSystemCode := some "0",
    text := "Passed Senate without amendment by Voice Vote." },
  { actionDate := "2019-02-20", sourceSystemCode := some "2",
    text := "On passage Passed by voice vote." },
  { actionDate := "2019-02-08", sourceSystemCode := some "1",
    text := "Committee on Ways and Means. Reported by the Committee on Ways and Means." },
  { actionDate := "2019-01-03", sourceSystemCode := some "2",
    text := "Referred to the Committee on Ways and Means." }]⟩

/-- Counterexample input for claim C4: `exB` has empty text, so the source
    compares `exC` against `exA` (not against `exB` as the claim's baseline
    prescribes). -/
def exA : RawAction :=
  { actionDate := "2020-01-01", sourceSystemCode := some "2", text := "foobar" }

/-- Middle action of the C4 counterexample (empty text, different date). -/
def exB : RawAction :=
  { actionDate := "2020-01-02", sourceSystemCode := some "2", text := "" }

/-- Final action of the C4 counterexample: LOC-sourced, same date as `exA`,
    text a trailing match of `exA`'s. -/
def exC : RawAction :=
  { actionDate := "2020-01-01", sourceSystemCode := some "9", text := "x foobar" }

end CongressScraper

namespace CongressScraper

/-! ## Helper lemmas -/

set_option maxRecDepth 8000

theorem isDigit09_not_isLowerAZ {c : Char} (h : isDigit09 c = true) : isLowerAZ c = false := by
  cases hl : isLowerAZ c
  · rfl
  · exfalso
    simp only [isLowerAZ, Bool.and_eq_true, decide_eq_true_eq] at hl
    simp only [isDigit09, Bool.and_eq_true, decide_eq_true_eq] at h
    omega

theorem takeWhile_append_all {p : Char → Bool} :
    ∀ (l r : List Char), (∀ x ∈ l, p x = true) →
      (l ++ r).takeWhile p = l ++ r.takeWhile p := by
  intro l r h
  induction l with
  | nil => simp
  | cons c cs ih =>
    have hc : p c = true := h c (by simp)
    simp only [List.cons_append, List.takeWhile_cons, hc, if_true]
    rw [ih fun x hx => h x (by simp [hx])]

theorem dropWhile_append_all {p : Char → Bool} :
    ∀ (l r : List Char), (∀ x ∈ l, p x = true) →
      (l ++ r).dropWhile p = r.dropWhile p := by
  intro l r h
  induction l with
  | nil => simp
  | cons c cs ih =>
    have hc : p c = true := h c (by simp)
    simp only [List.cons_append, List.dropWhile_cons, hc, if_true]
    exact ih fun x hx => h x (by simp [hx])

theorem takeWhile_head_false {p : Char → Bool} {c : Char} (l : List Char)
    (h : p c = false) : (c :: l).takeWhile p = [] := by
  simp [List.takeWhile_cons, h]

theorem dropWhile_head_false {p : Char → Bool} {c : Char} (l : List Char)
    (h : p c = false) : (c :: l).dropWhile p = c :: l := by
  simp [List.dropWhile_cons, h]

theorem mem_takeWhile_pred {p : Char → Bool} :
    ∀ {l : List Char} {x : Char}, x ∈ l.takeWhile p → p x = true := by
  intro l
  induction l with
  | nil => intro x hx; simp at hx
  | cons c cs ih =>
    intro x hx
    by_cases hc : p c = true
    · rw [List.takeWhile_cons, if_pos hc] at hx
      rcases List.mem_cons.mp hx with rfl | hx2
      · exact hc
      · exact ih hx2
    · rw [List.takeWhile_cons, if_neg hc] at hx
      simp at hx

/-- `split_bill_id` on a string decomposed per the bill-id pattern: the scan
    recovers exactly the three components. -/
theorem split_on_decomp (s : String) (a b c : List Char)
    (hs : s.data = a ++ b ++ '-' :: c)
    (ha : a ≠ []) (hb : b ≠ []) (hc : c ≠ [])
    (hal : ∀ x ∈ a, isLowerAZ x) (hbd : ∀ x ∈ b, isDigit09 x)
    (hcd : ∀ x ∈ c, isDigit09 x) :
    split_bill_id s = .ok ⟨⟨b⟩, ⟨a⟩, ⟨c⟩⟩ := by
  rcases b with _ | ⟨b0, bs⟩
  · exact absurd rfl hb
  have hb0 : isDigit09 b0 = true := hbd b0 (by simp)
  have hbs : ∀ x ∈ bs, isDigit09 x = true := fun x hx => hbd x (by simp [hx])
  have hlow : ∀ x ∈ a, isLowerAZ x = true := hal
  have hdash_dig : isDigit09 '-' = false := by decide
  have htake : (s.data).takeWhile isLowerAZ = a := by
    rw [hs, List.append_assoc, takeWhile_append_all a _ hlow,
      List.cons_append, takeWhile_head_false _ (isDigit09_not_isLowerAZ hb0),
      List.append_nil]
  have hdrop : (s.data).dropWhile isLowerAZ = b0 :: (bs ++ '-' :: c) := by
    rw [hs, List.append_assoc, dropWhile_append_all a _ hlow, List.cons_append,
      dropWhile_head_false _ (isDigit09_not_isLowerAZ hb0)]
  have htake2 : (b0 :: (bs ++ '-' :: c)).takeWhile isDigit09 = b0 :: bs := by
    simp only [List.takeWhile_cons, hb0, if_true]
    rw [takeWhile_append_all bs _ hbs, takeWhile_head_false _ hdash_dig, List.append_nil]
  have hdrop2 : (b0 :: (bs ++ '-' :: c)).dropWhile isDigit09 = '-' :: c := by
    simp only [List.dropWhile_cons, hb0, if_true]
    rw [dropWhile_append_all bs _ hbs, dropWhile_head_false _ hdash_dig]
  rcases a with _ | ⟨a0, as0⟩
  · exact absurd rfl ha
  simp only [split_bill_id, htake, hdrop, htake2, hdrop2]
  rw [if_pos ⟨hc, List.all_eq_true.mpr hcd⟩]

/-- A successful `split_bill_id` implies the bill-id pattern. -/
theorem split_ok_pattern (s : String) (h : (split_bill_id s).isOk = true) :
    bill_id_pattern s := by
  simp only [split_bill_id] at h
  split at h
  case _ l0 ls d0 ds rest3 hL hD hR =>
    split at h
    case _ hcond =>
      refine ⟨l0 :: ls, d0 :: ds, rest3, ?_, by simp, by simp, hcond.1, ?_, ?_, ?_⟩
      · have e1 : s.data = (s.data).takeWhile isLowerAZ ++ (s.data).dropWhile isLowerAZ :=
          (List.takeWhile_append_dropWhile isLowerAZ s.data).symm
        have e2 : (s.data).dropWhile isLowerAZ =
            ((s.data).dropWhile isLowerAZ).takeWhile isDigit09 ++
              ((s.data).dropWhile isLowerAZ).dropWhile isDigit09 :=
          (List.takeWhile_append_dropWhile isDigit09 ((s.data).dropWhile isLowerAZ)).symm
        rw [List.append_assoc]
        calc s.data = _ := e1
        _ = _ := by rw [e2]; rw [hL, hD, hR]
      · intro x hx; rw [← hL] at hx; exact mem_takeWhile_pred hx
      · intro x hx; rw [← hD] at hx; exact mem_takeWhile_pred hx
      · exact fun x hx => List.all_eq_true.mp hcond.2 x hx
    case _ => exact Bool.noConfusion h
  case _ => exact Bool.noConfusion h

/-- The only error `split_bill_id` produces is the invalid-bill-id one. -/
theorem split_error_shape (s : String) (e : JsErr) (h : split_bill_id s = .error e) :
    e = .invalidBillId s := by
  simp only [split_bill_id] at h
  split at h
  · split at h
    · exact Except.noConfusion h
    · injection h with h1; exact h1.symm
  · injection h with h1; exact h1.symm

/-- A `build_dict` result never carries a `status` field: the misspelt
    destructuring key `stauts` (see `parseResultProp`) yields `undefined`. -/
theorem build_dict_status_ok {bill_id title : String} {item : RawAction} {idx : Nat}
    {b : BillAction} (h : build_dict bill_id title item idx = .ok b) : b.status = none := by
  simp only [build_dict, bind, Except.bind] at h
  cases hp : parse_bill_action (action_for item) ((jsNumberProp idx "prev_status").getD "")
      bill_id title with
  | error e => rw [hp] at h; simp at h
  | ok r =>
    rw [hp] at h
    simp only [parseResultProp, pure, Except.pure, Except.ok.injEq] at h
    have hk : ¬ ("stauts" = "status") := by decide
    rw [if_neg hk] at h
    cases hra : r.action with
    | none => rw [hra] at h; subst h; rfl
    | some info => rw [hra] at h; subst h; rfl

/-- Every element of a successful `mapIdxME` run comes from a successful
    application of the callback. -/
theorem mapIdxME_ok_mem {α β ε : Type} {f : α → Nat → Except ε β} :
    ∀ {l : List α} {i : Nat} {r : List β}, mapIdxME f l i = .ok r →
      ∀ b ∈ r, ∃ a j, f a j = .ok b := by
  intro l
  induction l with
  | nil =>
    intro i r h b hb
    simp only [mapIdxME, Except.ok.injEq] at h
    subst h; simp at hb
  | cons a rest ih =>
    intro i r h b hb
    simp only [mapIdxME, bind, Except.bind] at h
    cases hfa : f a i with
    | error e => rw [hfa] at h; simp at h
    | ok b0 =>
      rw [hfa] at h
      cases hrest : mapIdxME f rest (i + 1) with
      | error e => rw [hrest] at h; simp at h
      | ok bs =>
        rw [hrest] at h
        simp only [pure, Except.pure, Except.ok.injEq] at h
        subst h
        rcases List.mem_cons.mp hb with rfl | hb2
        · exact ⟨a, i, hfa⟩
        · exact ih hrest b hb2

/-- The source deduplicator computes exactly the amended-claim deduplication
    of C4. -/
theorem dedup_actions_eq_spec :
    ∀ (l : List RawAction) (prev : Option RawAction),
      dedup_actions prev l = dedup_spec_amended prev l := by
  intro l
  induction l with
  | nil => intro prev; rfl
  | cons a rest ih =>
    intro prev
    by_cases ht : a.text = ""
    · simp only [dedup_actions, dedup_spec_amended, dedup_spec_amended_drop, ht]
      simp only [beq_self_eq_true, if_pos, ite_true, Bool.true_or, List.nil_append]
      exact ih prev
    · have htb : (a.text == "") = false := by simp [ht]
      simp only [dedup_actions, dedup_spec_amended, dedup_spec_amended_drop, htb,
        Bool.false_eq_true, if_false, Bool.false_or, ite_false]
      rw [ih (some a)]
      congr 1
      cases prev with
      | none => simp
      | some p =>
        simp only [keep_action_body, action_for]
        cases hc : (a.sourceSystemCode == some "9") with
        | false => simp [hc]
        | true =>
          simp only [hc]
          simp only [Bool.true_and, Bool.not_eq_true]
          split_ifs with h1 h2 <;> first | rfl | simp_all

end CongressScraper

namespace CongressScraper

/-! ## The claims -/

/-- C1: for every vote type of the table, both chambers, all eight bill
    types, both polarities of `passed`, `suspension` and `amended`, and every
    official title and prior status, `new_status_after_vote` returns exactly
    the next status prescribed by the vote-outcome table of spec section 4.3
    (`vote_table_spec`), including the no-change cases, the PASSED:CONSTAMEND
    branch, and the conference resolution branch. -/
theorem claim_C1_vote_status_table (vt ch bt : String) (p s a : Bool) (t pr : String)
    (hvt : vt ∈ voteTypes) (hch : ch ∈ chambers) (hbt : bt ∈ billTypes) :
    new_status_after_vote vt p ch bt s a t pr = vote_table_spec vt p ch bt s a t pr := by
  simp only [voteTypes, chambers, billTypes, List.mem_cons, List.not_mem_nil, or_false]
    at hvt hch hbt
  simp only [new_status_after_vote, vote_table_spec, vote_table_final]
  generalize jsStartsWith t constAmendMarker = bT
  generalize jsStartsWith pr "CONFERENCE:PASSED:" = bP
  revert p s a bT bP
  rcases hvt with rfl | rfl | rfl | rfl | rfl | rfl <;> rcases hch with rfl | rfl <;>
    rcases hbt with rfl | rfl | rfl | rfl | rfl | rfl | rfl | rfl <;> decide

/-- Witness for C1 at a concrete input (a House conference-report vote on a
    concurrent resolution after the Senate passed the conference report). -/
theorem claim_C1_vote_status_table_witness :
    ("conference" ∈ voteTypes) ∧ ("h" ∈ chambers) ∧ ("hconres" ∈ billTypes) ∧
      new_status_after_vote "conference" true "h" "hconres" false false ""
          "CONFERENCE:PASSED:SENATE" =
        vote_table_spec "conference" true "h" "hconres" false false ""
          "CONFERENCE:PASSED:SENATE" :=
  ⟨by decide, by decide, by decide,
   claim_C1_vote_status_table "conference" "h" "hconres" true false false ""
     "CONFERENCE:PASSED:SENATE" (by decide) (by decide) (by decide)⟩

/-- C2 (code bug evidence): on Scenario B — referral, committee report,
    House passage by voice vote, Senate passage without amendment, bill type
    `hr` — the record produced by the engine has `status` equal to JS
    `undefined` (`none`), not `PASSED:BILL` as the spec requires: the status
    thread is broken by the misspelt `stauts` destructuring and the shadowed
    `closure` parameter.  (`status_at` does coincide with the Senate
    passage's timestamp, because `latest_status` pops that action.) -/
theorem claim_C2_scenarioB_status :
    ∃ rec, bill_record_core scenarioB_node "hr1-116" (some "To provide a demonstration.")
        (some "2019-01-03") = .ok rec ∧
      rec.status = none ∧ rec.status_at = some "2019-03-12T00:00:00.000Z" :=
  ⟨_, rfl, rfl, rfl⟩

/-- C3: for every input, every classified action produced by `actions_for`
    has no `status` field: the classifier's status result is destructured
    under the misspelt key `stauts` and the prior-status closure is shadowed
    by the map index, so the status thread never advances and `status` is
    never set. -/
theorem claim_C3_status_never_set (node : ActionsNode) (bill_id title : String)
    (l : List BillAction) (h : actions_for node bill_id title = .ok l) :
    ∀ b ∈ l, b.status = none := by
  intro b hb
  simp only [actions_for] at h
  by_cases hlen : node.item.length = 0
  · rw [if_pos hlen] at h
    simp only [Except.ok.injEq] at h; subst h; simp at hb
  · rw [if_neg hlen] at h
    obtain ⟨a, j, hfa⟩ := mapIdxME_ok_mem h b hb
    exact build_dict_status_ok hfa

/-- Witness for C3 at a concrete single-action bill. -/
theorem claim_C3_status_never_set_witness :
    actions_for nodeA "hr1-116" "" = .ok [actA] ∧ ∀ b ∈ [actA], b.status = none :=
  ⟨by rfl, claim_C3_status_never_set nodeA "hr1-116" "" [actA] (by rfl)⟩

/-- C4 counterexample: in `[exA, exB, exC]` the action `exC` is dropped by
    the source (compared against `exA`: the empty-text `exB` never becomes
    the comparison baseline), while the claim's baseline — the immediately
    preceding source-order action `exB` — has a different date, so the claim
    as stated keeps `exC`. -/
theorem claim_C4_counterexample_baseline :
    dedup_actions none [exA, exB, exC] = [exA] ∧
    dedup_spec_original none [exA, exB, exC] = [exA, exC] ∧
    dedup_actions none [exA, exB, exC] ≠ dedup_spec_original none [exA, exB, exC] :=
  ⟨by decide, by decide, by decide⟩

/-- C4 as amended: an action is dropped if and only if its text is empty, or
    it is LOC-sourced with matching date, compatible time, and trailing-match
    text against the most recent preceding source-order action with
    **non-empty text** (empty-text actions never update the baseline), where
    "stripped" removes only the first space; the kept actions, reversed to
    oldest-first order, are exactly what the classifier maps over. -/
theorem claim_C4_dedup_amended (node : ActionsNode) (bill_id title : String) :
    actions_for node bill_id title =
      mapIdxME (build_dict bill_id title) (dedup_spec_amended none node.item).reverse 0 := by
  simp only [actions_for]
  by_cases h : node.item.length = 0
  · rw [if_pos h]
    rw [List.length_eq_zero.mp h]
    rfl
  · rw [if_neg h, dedup_actions_eq_spec]

/-- C5 (code bug evidence): on an empty classified action list the history is
    marked **active** — `activation_from` returns the empty array, which is
    truthy in JavaScript — with no `active_at`; the spec requires an empty
    action list to yield an inactive history. -/
theorem claim_C5_empty_actions_active :
    activation_from [] = .emptyArr ∧ (history_from_actions []).active = true ∧
      (history_from_actions []).active_at = none :=
  ⟨rfl, rfl, rfl⟩

/-- C6 (code bug evidence): for an `hr` bill whose only action is its
    introduction (matched by no rule), the record's `status` is JS
    `undefined` (`none`), not `INTRODUCED` — `latest_status` unconditionally
    reads the popped action's absent `status` — and `history.active` is
    `true`, not `false` — the pop leaves an empty array, which
    `activation_from` maps to the truthy empty array. -/
theorem claim_C6_scenarioA_record :
    ∃ rec, bill_record_core nodeA "hr1-116" none (some "2019-01-03") = .ok rec ∧
      rec.status = none ∧ rec.history.active = true :=
  ⟨_, rfl, rfl, rfl⟩

/-- C7: classifying `Became Public Law No: 116-123.` yields type `enacted`
    and the public-law citation 116-123, and the resulting status is: none
    (unchanged) for the three terminal ENACTED prior statuses,
    `ENACTED:VETO_OVERRIDE` when the prior status is `PROV_KILL:VETO` or
    starts with `VETOED:`, and otherwise whatever was previously computed
    (here none — no forced change), for every prior status string. -/
theorem claim_C7_enacted_citation (p : String) :
    parse_bill_action law_action_dict p "hr1-116" "" = .ok {
      action := some { type := "enacted", law := some "public",
                       congress := some "116", number := some "123" },
      status :=
        if p = "ENACTED:SIGNED" || p = "ENACTED:VETO_OVERRIDE" || p = "ENACTED:TENDAYRULE" then
          none
        else if p = "PROV_KILL:VETO" || jsStartsWith p "VETOED:" then
          some "ENACTED:VETO_OVERRIDE"
        else none } := by
  rfl

/-- C8 counterexample: on the label `Short Title as A:B:` the source removes
    the **first** colon (`as` becomes `ab:`), while the claim's trailing-colon
    rule yields `a:b`. -/
theorem claim_C8_counterexample_colon :
    titles_for ⟨[⟨"Short Title as A:B:", "T"⟩]⟩ =
        .ok [{ title := "T", is_for_portion := false, as := some "ab:", type := "short" }] ∧
    title_as_spec_original "A:B:" = "a:b" ∧
    title_as_spec_original "A:B:" ≠ "ab:" :=
  ⟨by rfl, by rfl, by decide⟩

/-- C8 as amended: the two labelled examples classify as claimed, and in
    general the title classifier strips the portion suffix (setting the
    flag), removes the **first** colon (not specifically a trailing one),
    lower-cases the qualifier, and fails with `UnknownTitleType` on labels
    whose kind contains none of the known kind substrings
    (`title_spec_amended`). -/
theorem claim_C8_titles_amended :
    (titles_for ⟨[⟨"Short Titles as Introduced", "T1"⟩]⟩ =
      .ok [{ title := "T1", is_for_portion := false, as := some "introduced",
             type := "short" }]) ∧
    (titles_for ⟨[⟨"Official Title as Introduced for portions of this bill", "T2"⟩]⟩ =
      .ok [{ title := "T2", is_for_portion := true, as := some "introduced",
             type := "official" }]) ∧
    ∀ item : TitleItem, title_build_dict item = title_spec_amended item := by
  refine ⟨by rfl, by rfl, ?_⟩
  intro item
  simp only [title_build_dict, title_spec_amended]
  by_cases hi : jsIncludes item.titleType " as " = true
  · rw [if_pos hi]
    generalize jsSplit item.titleType " as " = sp
    rcases sp with _ | ⟨k, _ | ⟨q, _ | ⟨x, xs⟩⟩⟩
    · simp only [List.length_nil, title_kind_spec, Except.map]
      norm_num
      split_ifs <;> rfl
    · simp only [List.length_cons, List.length_nil, title_kind_spec, Except.map]
      norm_num
      split_ifs <;> rfl
    · simp only [List.length_cons, List.length_nil, List.headD_cons, List.getElem?_cons_succ,
        List.getElem?_cons_zero, Option.getD_some, title_kind_spec, Except.map]
      norm_num
      split_ifs <;> rfl
    · simp only [List.length_cons, title_kind_spec, Except.map]
      have hne : xs.length + 1 + 1 + 1 ≠ 2 := by omega
      rw [if_neg hne]
      split_ifs <;> rfl
  · rw [if_neg hi]
    generalize jsSplit item.titleType " on " = sp
    rcases sp with _ | ⟨k, _ | ⟨q, _ | ⟨x, xs⟩⟩⟩
    · simp only [List.length_nil, title_kind_spec, Except.map]
      norm_num
      split_ifs <;> rfl
    · simp only [List.length_cons, List.length_nil, title_kind_spec, Except.map]
      norm_num
      split_ifs <;> rfl
    · simp only [List.length_cons, List.length_nil, List.headD_cons, List.getElem?_cons_succ,
        List.getElem?_cons_zero, Option.getD_some, title_kind_spec, Except.map]
      norm_num
      split_ifs <;> rfl
    · simp only [List.length_cons, title_kind_spec, Except.map]
      have hne : xs.length + 1 + 1 + 1 ≠ 2 := by omega
      rw [if_neg hne]
      split_ifs <;> rfl

/-- C9: with at least one kept classified action, `latest_status` pops the
    last element in place, so the record's `actions` field and the history
    summary are computed from all classified actions except the
    chronologically latest, which survives only through `status`/`status_at`. -/
theorem claim_C9_latest_status_pop (node : ActionsNode) (bill_id : String)
    (official_title intro : Option String) (l : List BillAction)
    (h : actions_for node bill_id (official_title.getD "") = .ok l) (hne : l ≠ []) :
    bill_record_core node bill_id official_title intro = .ok
      { actions := l.dropLast
        history := history_from_actions l.dropLast
        status := (l.getLast hne).status
        status_at := some (l.getLast hne).acted_at } := by
  simp only [bill_record_core, bind, Except.bind, h, latest_status,
    List.getLast?_eq_getLast l hne, pure, Except.pure]

/-- Witness for C9 on the single-action bill `nodeA`. -/
theorem claim_C9_latest_status_pop_witness :
    (actions_for nodeA "hr1-116" ((none : Option String).getD "") = .ok [actA]) ∧
      ([actA] ≠ ([] : List BillAction)) ∧
      bill_record_core nodeA "hr1-116" none (some "2019-01-03") = .ok
        { actions := [actA].dropLast
          history := history_from_actions [actA].dropLast
          status := ([actA].getLast (by decide)).status
          status_at := some ([actA].getLast (by decide)).acted_at } :=
  ⟨by rfl, by decide,
   claim_C9_latest_status_pop nodeA "hr1-116" none (some "2019-01-03") [actA]
     (by rfl) (by decide)⟩

/-- C10: `split_bill_id` succeeds exactly on strings matching
    `^[a-z]+\d+-\d+$`, fails with the invalid-bill-id error otherwise, and
    inverts `build_bill_id` on every bill type of the enum and nonempty
    digit strings for number and congress. -/
theorem claim_C10_split_round_trip :
    (∀ s : String, ((split_bill_id s).isOk = true ↔ bill_id_pattern s) ∧
      (¬ bill_id_pattern s → split_bill_id s = .error (.invalidBillId s))) ∧
    (∀ bt n c : String, bt ∈ billTypes → n ≠ "" → c ≠ "" →
      (∀ x ∈ n.data, isDigit09 x) → (∀ x ∈ c.data, isDigit09 x) →
      split_bill_id (build_bill_id bt n c) = .ok ⟨n, bt, c⟩) := by
  constructor
  · intro s
    constructor
    · constructor
      · exact split_ok_pattern s
      · rintro ⟨a, b, c, hs, ha, hb, hc, hal, hbd, hcd⟩
        rw [split_on_decomp s a b c hs ha hb hc hal hbd hcd]
        rfl
    · intro hnp
      cases hsp : split_bill_id s with
      | ok x => exact absurd (split_ok_pattern s (by rw [hsp]; rfl)) hnp
      | error e => rw [split_error_shape s e hsp]
  · intro bt n c hbt hn hc hnd hcd
    have hdata : (build_bill_id bt n c).data = bt.data ++ n.data ++ '-' :: c.data := by
      simp only [build_bill_id, String.data_append, List.append_assoc, List.singleton_append]
    have hnd1 : n.data ≠ [] := by
      intro hnil
      apply hn
      cases n
      simp_all
    have hcd1 : c.data ≠ [] := by
      intro hnil
      apply hc
      cases c
      simp_all
    have hbtl : bt.data ≠ [] ∧ ∀ x ∈ bt.data, isLowerAZ x = true := by
      fin_cases hbt <;> exact ⟨by decide, by decide⟩
    have hsp := split_on_decomp (build_bill_id bt n c) bt.data n.data c.data hdata
      hbtl.1 hnd1 hcd1 hbtl.2 hnd hcd
    rw [hsp]

/-- Witness for C10 on the bill id `hr12-116`. -/
theorem claim_C10_split_round_trip_witness :
    ((split_bill_id "hr12-116").isOk = true ↔ bill_id_pattern "hr12-116") ∧
      (("hr" ∈ billTypes) ∧ ("12" : String) ≠ "" ∧ ("116" : String) ≠ "" ∧
        split_bill_id (build_bill_id "hr" "12" "116") = .ok ⟨"12", "hr", "116"⟩) :=
  ⟨(claim_C10_split_round_trip.1 "hr12-116").1,
   ⟨by decide, by decide, by decide,
    claim_C10_split_round_trip.2 "hr" "12" "116" (by decide) (by decide) (by decide)
      (by decide) (by decide)⟩⟩

end CongressScraper
